import Mathlib

/-!
Shallow embedding of the HourLeaf backend (Django app `flowers`):
`src/backend/flowers/models.py`, `src/backend/flowers/views.py`,
`src/backend/flowers/urls.py`.

Modelling conventions:
* UUIDs and timestamps are `Nat`.
* The persistent store is a `List Flower` (insertion order).
* All randomness and clock reads are explicit inputs: `newId` models the
  `uuid.uuid4()` default of the `id` field, `now` models `timezone.now()`,
  `vc`/`sr` model the random draws of `random_variation()`/`random_seed()`,
  `te` models the entropy consumed by `secrets.token_hex(32)`, and `ca`
  models the `auto_now_add` timestamp of `created_at`.
* An HTTP request is reduced to its cookie jar, a `List (String × String)`;
  `cookiesGet` models `request.COOKIES.get(...)` (`none` when absent).
* Responses are the inductive `Response`; `redirect` carries the target URL
  and the list of cookies set on the response by `set_cookie`.
-/

namespace HourLeaf

/-- A `Set-Cookie` attribute bundle, as produced by Django's
`HttpResponse.set_cookie(key, value, max_age, httponly, samesite)`. -/
structure SetCookie where
  key : String
  value : String
  max_age : Nat
  httponly : Bool
  samesite : String
deriving Repr, DecidableEq

/-- The `Flower` model of `models.py`. Field semantics:
`id` is the UUID primary key (default `uuid.uuid4`), `planted_at` the
caller-supplied timestamp, `variation` the colour string, `seed` the
random seed (`PositiveIntegerField`), `owner_token` the secret ownership
token (`CharField(max_length=64, unique=True)`, Django's implicit default
for a `CharField` is the empty string), `created_at` the `auto_now_add`
metadata timestamp. -/
structure Flower where
  id : Nat
  planted_at : Nat
  variation : String
  seed : Nat
  owner_token : String
  created_at : Nat
deriving Repr, DecidableEq

/-- An HTTP response, as far as the two views produce them:
a redirect (`django.shortcuts.redirect`, carrying the cookies later set on
it), a rendered template (`django.shortcuts.render`, handed the full
record), or the 404 raised by `get_object_or_404`. -/
inductive Response where
  | redirect (url : String) (cookies : List SetCookie)
  | render (template : String) (flower : Flower)
  | notFound
deriving Repr, DecidableEq

/-- The hex digit characters `0`-`9`, `a`-`f` used by `secrets.token_hex`. -/
def hexDigit (n : Nat) : Char :=
  if n < 10 then Char.ofNat (48 + n) else Char.ofNat (97 + (n - 10))

/-- Big-endian fixed-width hex rendering: `toHexAux k n` is the `k`
low-order hex digits of `n`, most significant first. -/
def toHexAux : Nat → Nat → List Char
  | 0, _ => []
  | k + 1, n => toHexAux k (n / 16) ++ [hexDigit (n % 16)]

/-- `secrets.token_hex(nbytes)`: `2 * nbytes` random hex characters.
The OS entropy consumed is the explicit input `entropy`; the result is the
fixed-width hex rendering of `entropy mod 256^nbytes`. -/
def secrets_token_hex (nbytes : Nat) (entropy : Nat) : String :=
  String.mk (toHexAux (2 * nbytes) entropy)

/-- `Flower.save` of `models.py`: the pre-persist step generates
`owner_token` via `secrets.token_hex(32)` exactly when the field is still
empty (`if not self.owner_token:` — Python falsiness of the empty string),
then hands the record to `super().save(...)`. The returned record is the
one persisted. -/
def Flower.save (f : Flower) (te : Nat) : Flower :=
  if f.owner_token = "" then { f with owner_token := secrets_token_hex 32 te } else f

/-- The keyword arguments of `Flower.objects.create(planted_at=..., variation=...,
seed=...)` assembled into a record, with the unsupplied fields at their
model defaults: `id` from `uuid.uuid4()` (the input `newId`), `owner_token`
at the `CharField` default `""`, `created_at` from `auto_now_add`. -/
def Flower.mkNew (planted_at : Nat) (variation : String) (seed : Nat)
    (newId : Nat) (createdAt : Nat) : Flower :=
  { id := newId, planted_at := planted_at, variation := variation,
    seed := seed, owner_token := "", created_at := createdAt }

/-- Modelled from the spec: `random_variation` of the missing
`flowers/utils/seeds.py` draws uniformly from the fixed enumeration
`{red, purple, green}`; the draw is the explicit input `vc`. -/
def random_variation (vc : Nat) : String :=
  match vc % 3 with
  | 0 => "red"
  | 1 => "purple"
  | _ => "green"

/-- Django's documented guaranteed range for `models.PositiveIntegerField`
(the type of `Flower.seed`) is 0 to 2147483647 = 2^31 - 1: that is the
bound in `BaseDatabaseOperations.integer_field_ranges` used for model
validation, and the largest value safe in all supported databases. -/
def PositiveIntegerField_max : Nat := 2147483647

/-- A value the `seed` storage field can hold. -/
def seedRepresentable (n : Nat) : Prop := n ≤ PositiveIntegerField_max

/-- Modelled from the spec: `random_seed` of the missing
`flowers/utils/seeds.py` draws from the full non-negative range available
to the storage field; the draw is the explicit input `sr`. -/
def random_seed (sr : Nat) : Nat :=
  sr % (PositiveIntegerField_max + 1)

/-- `request.COOKIES.get(k)`: look the key up in the request's cookie jar. -/
def cookiesGet (cookies : List (String × String)) (k : String) : Option String :=
  (cookies.find? (fun p => p.1 == k)).map (fun p => p.2)

/-- The URL of `redirect("view_flower", flower_id=i)`: route
`f/<uuid:flower_id>/` of `urls.py`. -/
def view_url (i : Nat) : String := "f/" ++ toString i ++ "/"

/-- The cookie set by `response.set_cookie(key="flower_owner", value=tok,
max_age=60*60*24*365, httponly=True, samesite="Strict")`. -/
def flowerCookie (tok : String) : SetCookie :=
  { key := "flower_owner", value := tok, max_age := 60 * 60 * 24 * 365,
    httponly := true, samesite := "Strict" }

/-- The creation path of `plant_flower`: `Flower.objects.create(...)`
(which runs `Flower.save` with `force_insert`, so the record is INSERTed —
appended to the store), then a redirect to the new flower's view page with
the ownership cookie set on it. -/
def plant_create (store : List Flower) (now newId vc sr te ca : Nat) :
    List Flower × Response :=
  let flower := Flower.save
    (Flower.mkNew now (random_variation vc) (random_seed sr) newId ca) te
  (store ++ [flower],
   Response.redirect (view_url flower.id) [flowerCookie flower.owner_token])

/-- `plant_flower` of `views.py`. Reads the `flower_owner` cookie; when it
is truthy (present and non-empty) and `Flower.objects.filter(owner_token=
owner_token).first()` finds a record, redirects to that record's view page
(no cookie set, store untouched); otherwise takes the creation path. -/
def plant_flower (store : List Flower) (cookies : List (String × String))
    (now newId vc sr te ca : Nat) : List Flower × Response :=
  let owner_token := cookiesGet cookies "flower_owner"
  match owner_token with
  | some t =>
    if t ≠ "" then
      match store.find? (fun f => f.owner_token == t) with
      | some existing => (store, Response.redirect (view_url existing.id) [])
      | none => plant_create store now newId vc sr te ca
    else plant_create store now newId vc sr te ca
  | none => plant_create store now newId vc sr te ca

/-- `get_object_or_404(Flower, id=flower_id)`: first stored record with the
given primary key, if any. -/
def get_object_or_404 (store : List Flower) (flower_id : Nat) : Option Flower :=
  store.find? (fun f => f.id == flower_id)

/-- `view_flower` of `views.py`: look the record up by `id`; render
`flower.html` with the full record, or 404. The request's cookies are
never read; the store is not written. -/
def view_flower (store : List Flower) (cookies : List (String × String))
    (flower_id : Nat) : List Flower × Response :=
  match get_object_or_404 store flower_id with
  | some flower => (store, Response.render "flower.html" flower)
  | none => (store, Response.notFound)

/-- The cookies set on a response. -/
def respCookies : Response → List SetCookie
  | Response.redirect _ cs => cs
  | _ => []

/-! Helper lemmas. -/

theorem toHexAux_length (k : Nat) : ∀ n : Nat, (toHexAux k n).length = k := by
  induction k with
  | zero => intro n; rfl
  | succ k ih =>
    intro n
    simp only [toHexAux, List.length_append, List.length_cons, List.length_nil, ih]

theorem secrets_token_hex_length (nbytes e : Nat) :
    (secrets_token_hex nbytes e).length = 2 * nbytes := by
  show (toHexAux (2 * nbytes) e).length = 2 * nbytes
  exact toHexAux_length _ e

theorem secrets_token_hex_ne_empty (e : Nat) : secrets_token_hex 32 e ≠ "" := by
  intro h
  have := secrets_token_hex_length 32 e
  rw [h] at this
  simp at this

theorem hexDigit_mem_hex : ∀ a : Fin 16, hexDigit a ∈ "0123456789abcdef".data := by
  decide

theorem hexDigit_inj : ∀ a b : Fin 16, hexDigit a.val = hexDigit b.val → a = b := by
  decide

theorem toHexAux_mem_hex (k : Nat) :
    ∀ (n : Nat), ∀ c ∈ toHexAux k n, c ∈ "0123456789abcdef".data := by
  induction k with
  | zero => intro n c hc; cases hc
  | succ k ih =>
    intro n c hc
    simp only [toHexAux] at hc
    rcases List.mem_append.mp hc with h | h
    · exact ih _ c h
    · rcases List.mem_singleton.mp h with rfl
      exact hexDigit_mem_hex ⟨n % 16, Nat.mod_lt _ (by norm_num)⟩

theorem toHexAux_inj (k : Nat) : ∀ n m : Nat, n < 16 ^ k → m < 16 ^ k →
    toHexAux k n = toHexAux k m → n = m := by
  induction k with
  | zero =>
    intro n m hn hm _
    simp only [pow_zero, Nat.lt_one_iff] at hn hm
    omega
  | succ k ih =>
    intro n m hn hm he
    simp only [toHexAux] at he
    have hlen : (toHexAux k (n / 16)).length = (toHexAux k (m / 16)).length := by
      rw [toHexAux_length, toHexAux_length]
    obtain ⟨h1, h2⟩ := List.append_inj he hlen
    have hd : hexDigit (n % 16) = hexDigit (m % 16) := by
      simpa using h2
    have hmod : n % 16 = m % 16 := by
      have := hexDigit_inj ⟨n % 16, Nat.mod_lt _ (by norm_num)⟩
        ⟨m % 16, Nat.mod_lt _ (by norm_num)⟩ hd
      simpa [Fin.mk.injEq] using this
    have hdivlt : n / 16 < 16 ^ k ∧ m / 16 < 16 ^ k := by
      constructor <;> · rw [Nat.div_lt_iff_lt_mul (by norm_num : 0 < 16)]
                        calc _ < 16 ^ (k + 1) := by assumption
                          _ = 16 ^ k * 16 := by rw [pow_succ]
    have hdiv := ih (n / 16) (m / 16) hdivlt.1 hdivlt.2 h1
    omega

theorem secrets_token_hex_inj (e1 e2 : Nat) (h1 : e1 < 2 ^ 256) (h2 : e2 < 2 ^ 256)
    (he : secrets_token_hex 32 e1 = secrets_token_hex 32 e2) : e1 = e2 := by
  have hpow : (2 : Nat) ^ 256 = 16 ^ 64 := by norm_num
  have hdata : toHexAux 64 e1 = toHexAux 64 e2 := by
    have := congrArg String.data he
    simpa [secrets_token_hex] using this
  exact toHexAux_inj 64 e1 e2 (hpow ▸ h1) (hpow ▸ h2) hdata

theorem find?_key_eq_of_mem_nodup {α β : Type} [DecidableEq β] (key : α → β) :
    ∀ (l : List α) (a : α), (l.map key).Nodup → a ∈ l →
      l.find? (fun x => key x == key a) = some a := by
  intro l
  induction l with
  | nil => intro a _ ha; cases ha
  | cons b l ih =>
    intro a hnd ha
    rw [List.map_cons, List.nodup_cons] at hnd
    rcases List.mem_cons.mp ha with rfl | ha
    · exact List.find?_cons_of_pos _ (by simp)
    · have hne : key b ≠ key a := by
        intro he
        exact hnd.1 (he ▸ List.mem_map_of_mem key ha)
      rw [List.find?_cons_of_neg _ (by simpa using hne)]
      exact ih a hnd.2 ha

theorem plant_create_eq (store : List Flower) (now newId vc sr te ca : Nat) :
    plant_create store now newId vc sr te ca =
      (store ++ [{ id := newId, planted_at := now, variation := random_variation vc,
                   seed := random_seed sr, owner_token := secrets_token_hex 32 te,
                   created_at := ca }],
       Response.redirect (view_url newId) [flowerCookie (secrets_token_hex 32 te)]) := by
  simp [plant_create, Flower.save, Flower.mkNew]

theorem plant_flower_of_cookie_none (store : List Flower)
    (cookies : List (String × String)) (now newId vc sr te ca : Nat)
    (h : cookiesGet cookies "flower_owner" = none) :
    plant_flower store cookies now newId vc sr te ca =
      plant_create store now newId vc sr te ca := by
  simp [plant_flower, h]

theorem plant_flower_of_cookie_empty (store : List Flower)
    (cookies : List (String × String)) (now newId vc sr te ca : Nat)
    (h : cookiesGet cookies "flower_owner" = some "") :
    plant_flower store cookies now newId vc sr te ca =
      plant_create store now newId vc sr te ca := by
  simp [plant_flower, h]

theorem plant_flower_of_find_none (store : List Flower)
    (cookies : List (String × String)) (now newId vc sr te ca : Nat) (t : String)
    (h : cookiesGet cookies "flower_owner" = some t) (ht : t ≠ "")
    (hf : store.find? (fun f => f.owner_token == t) = none) :
    plant_flower store cookies now newId vc sr te ca =
      plant_create store now newId vc sr te ca := by
  simp [plant_flower, h, ht, hf]

theorem plant_flower_of_find_some (store : List Flower)
    (cookies : List (String × String)) (now newId vc sr te ca : Nat)
    (t : String) (f : Flower)
    (h : cookiesGet cookies "flower_owner" = some t) (ht : t ≠ "")
    (hf : store.find? (fun g => g.owner_token == t) = some f) :
    plant_flower store cookies now newId vc sr te ca =
      (store, Response.redirect (view_url f.id) []) := by
  simp [plant_flower, h, ht, hf]

theorem plant_flower_cases (store : List Flower) (cookies : List (String × String))
    (now newId vc sr te ca : Nat) :
    (plant_flower store cookies now newId vc sr te ca).1 = store ∨
    plant_flower store cookies now newId vc sr te ca =
      plant_create store now newId vc sr te ca := by
  rcases hc : cookiesGet cookies "flower_owner" with _ | t
  · exact Or.inr (plant_flower_of_cookie_none _ _ _ _ _ _ _ _ hc)
  · by_cases ht : t = ""
    · subst ht
      exact Or.inr (plant_flower_of_cookie_empty _ _ _ _ _ _ _ _ hc)
    · rcases hf : store.find? (fun f => f.owner_token == t) with _ | f
      · exact Or.inr (plant_flower_of_find_none _ _ _ _ _ _ _ _ t hc ht hf)
      · rw [plant_flower_of_find_some _ _ _ _ _ _ _ _ t f hc ht hf]
        exact Or.inl rfl

theorem plant_flower_create_of_no_match (store : List Flower)
    (cookies : List (String × String)) (now newId vc sr te ca : Nat)
    (h : cookiesGet cookies "flower_owner" = none ∨
         ∀ t, cookiesGet cookies "flower_owner" = some t →
           ∀ f ∈ store, f.owner_token ≠ t) :
    plant_flower store cookies now newId vc sr te ca =
      plant_create store now newId vc sr te ca := by
  rcases hc : cookiesGet cookies "flower_owner" with _ | t
  · exact plant_flower_of_cookie_none _ _ _ _ _ _ _ _ hc
  · rcases h with h | h
    · rw [h] at hc; cases hc
    · by_cases ht : t = ""
      · subst ht
        exact plant_flower_of_cookie_empty _ _ _ _ _ _ _ _ hc
      · refine plant_flower_of_find_none _ _ _ _ _ _ _ _ t hc ht ?_
        rw [List.find?_eq_none]
        intro f hf
        simpa using h t hc f hf

/-! Claim theorems. -/

/-- C1: for every plant request whose `flower_owner` cookie is absent or matches
no stored record's `owner_token`, `plant_flower` appends exactly one new record
to the store — with the freshly drawn uuid as `id`, the current time as
`planted_at`, the random variation and seed draws, and a freshly generated
`owner_token` — and responds with a redirect to that record's view page. -/
theorem C1_plant_creates_fresh (store : List Flower) (cookies : List (String × String))
    (now newId vc sr te ca : Nat)
    (h : cookiesGet cookies "flower_owner" = none ∨
         ∀ t, cookiesGet cookies "flower_owner" = some t →
           ∀ f ∈ store, f.owner_token ≠ t) :
    plant_flower store cookies now newId vc sr te ca =
      (store ++ [{ id := newId, planted_at := now, variation := random_variation vc,
                   seed := random_seed sr, owner_token := secrets_token_hex 32 te,
                   created_at := ca }],
       Response.redirect (view_url newId) [flowerCookie (secrets_token_hex 32 te)]) ∧
    (plant_flower store cookies now newId vc sr te ca).1.length = store.length + 1 := by
  have hcr := plant_flower_create_of_no_match store cookies now newId vc sr te ca h
  rw [hcr, plant_create_eq]
  exact ⟨rfl, by simp⟩

/-- C1 witness: planting into an empty store with no cookie. -/
theorem C1_plant_creates_fresh_witness :
    plant_flower [] [] 10 7 0 5 3 11 =
      ([{ id := 7, planted_at := 10, variation := random_variation 0,
          seed := random_seed 5, owner_token := secrets_token_hex 32 3,
          created_at := 11 }],
       Response.redirect (view_url 7) [flowerCookie (secrets_token_hex 32 3)]) ∧
    (plant_flower [] [] 10 7 0 5 3 11).1.length = 1 := by
  simpa using C1_plant_creates_fresh [] [] 10 7 0 5 3 11 (Or.inl rfl)

/-- C2: a plant request whose `flower_owner` cookie equals the `owner_token` of a
stored record (tokens being pairwise distinct, as the unique constraint
guarantees) leaves the store unchanged and redirects to that record's view
page: idempotent re-entry, record count unchanged. -/
theorem C2_plant_idempotent (store : List Flower) (cookies : List (String × String))
    (now newId vc sr te ca : Nat) (f : Flower)
    (hnd : (store.map Flower.owner_token).Nodup) (hmem : f ∈ store)
    (hc : cookiesGet cookies "flower_owner" = some f.owner_token)
    (hne : f.owner_token ≠ "") :
    plant_flower store cookies now newId vc sr te ca =
      (store, Response.redirect (view_url f.id) []) ∧
    (plant_flower store cookies now newId vc sr te ca).1.length = store.length := by
  have hf : store.find? (fun g => g.owner_token == f.owner_token) = some f :=
    find?_key_eq_of_mem_nodup Flower.owner_token store f hnd hmem
  have heq := plant_flower_of_find_some store cookies now newId vc sr te ca
    f.owner_token f hc hne hf
  exact ⟨heq, by rw [heq]⟩

/-- C2 witness: re-planting with the stored owner's cookie. -/
theorem C2_plant_idempotent_witness :
    plant_flower [⟨1, 2, "red", 3, "ab", 4⟩] [("flower_owner", "ab")] 10 7 0 5 3 11 =
      ([⟨1, 2, "red", 3, "ab", 4⟩], Response.redirect (view_url 1) []) ∧
    (plant_flower [⟨1, 2, "red", 3, "ab", 4⟩] [("flower_owner", "ab")]
        10 7 0 5 3 11).1.length = 1 :=
  C2_plant_idempotent [⟨1, 2, "red", 3, "ab", 4⟩] [("flower_owner", "ab")]
    10 7 0 5 3 11 ⟨1, 2, "red", 3, "ab", 4⟩ (by decide) (by decide) rfl (by decide)

/-- C3: a view request for an id held by a stored record (ids being pairwise
distinct, as the primary key guarantees) renders that full record; a view
request for an id no stored record holds answers not-found. -/
theorem C3_view_found_or_404 (store : List Flower) (cookies : List (String × String))
    (flower_id : Nat) (hnd : (store.map Flower.id).Nodup) :
    (∀ f ∈ store, f.id = flower_id →
       view_flower store cookies flower_id = (store, Response.render "flower.html" f)) ∧
    ((∀ f ∈ store, f.id ≠ flower_id) →
       view_flower store cookies flower_id = (store, Response.notFound)) := by
  constructor
  · intro f hmem hid
    subst hid
    have hf : store.find? (fun g => g.id == f.id) = some f :=
      find?_key_eq_of_mem_nodup Flower.id store f hnd hmem
    simp [view_flower, get_object_or_404, hf]
  · intro h
    have hf : store.find? (fun g => g.id == flower_id) = none := by
      rw [List.find?_eq_none]
      intro g hg
      simpa using h g hg
    simp [view_flower, get_object_or_404, hf]

/-- C3 witness: a hit on the stored id and a miss on a fresh id. -/
theorem C3_view_found_or_404_witness :
    view_flower [⟨1, 2, "red", 3, "ab", 4⟩] [] 1 =
      ([⟨1, 2, "red", 3, "ab", 4⟩], Response.render "flower.html" ⟨1, 2, "red", 3, "ab", 4⟩) ∧
    view_flower [⟨1, 2, "red", 3, "ab", 4⟩] [] 9 =
      ([⟨1, 2, "red", 3, "ab", 4⟩], Response.notFound) :=
  ⟨(C3_view_found_or_404 [⟨1, 2, "red", 3, "ab", 4⟩] [] 1 (by decide)).1
      ⟨1, 2, "red", 3, "ab", 4⟩ (by decide) rfl,
   (C3_view_found_or_404 [⟨1, 2, "red", 3, "ab", 4⟩] [] 9 (by decide)).2 (by decide)⟩

/-- C4: `Flower.save` generates `owner_token` exactly once, guarded by the
presence check: a non-empty token is never changed, an empty one is set to
`secrets.token_hex(32)`; after any save the token is non-empty; and the
generated value is a 64-character hex string whose generator is injective on
the 2^256 possible entropy draws (256 bits of entropy). -/
theorem C4_owner_token_once (f : Flower) (te : Nat) :
    (f.owner_token ≠ "" → (Flower.save f te).owner_token = f.owner_token) ∧
    (f.owner_token = "" → (Flower.save f te).owner_token = secrets_token_hex 32 te) ∧
    (Flower.save f te).owner_token ≠ "" ∧
    (secrets_token_hex 32 te).length = 64 ∧
    (∀ c ∈ (secrets_token_hex 32 te).data, c ∈ "0123456789abcdef".data) ∧
    (∀ e1 e2 : Nat, e1 < 2 ^ 256 → e2 < 2 ^ 256 →
       secrets_token_hex 32 e1 = secrets_token_hex 32 e2 → e1 = e2) := by
  refine ⟨fun h => ?_, fun h => ?_, ?_, secrets_token_hex_length 32 te,
    fun c hc => toHexAux_mem_hex 64 te c hc, secrets_token_hex_inj⟩
  · simp [Flower.save, h]
  · simp [Flower.save, h]
  · by_cases h : f.owner_token = ""
    · simpa [Flower.save, h] using secrets_token_hex_ne_empty te
    · simp [Flower.save, h]

/-- C4 witness: a record whose token is already set keeps it across a save. -/
theorem C4_owner_token_once_witness :
    ("ab" : String) ≠ "" ∧ (Flower.save ⟨1, 2, "red", 3, "ab", 4⟩ 5).owner_token = "ab" :=
  ⟨by decide, (C4_owner_token_once ⟨1, 2, "red", 3, "ab", 4⟩ 5).1 (by decide)⟩

/-- C5: the plant response carries the `flower_owner` cookie only on the
creation branch — on idempotent re-entry no cookie is set — and the cookie set
on creation has the new record's `owner_token` as value, a one-year max-age,
the HTTP-only flag, and SameSite=Strict. -/
theorem C5_cookie_policy (store : List Flower) (cookies : List (String × String))
    (now newId vc sr te ca : Nat) :
    (∀ f ∈ store, (store.map Flower.owner_token).Nodup →
       cookiesGet cookies "flower_owner" = some f.owner_token → f.owner_token ≠ "" →
       respCookies (plant_flower store cookies now newId vc sr te ca).2 = []) ∧
    ((cookiesGet cookies "flower_owner" = none ∨
        ∀ t, cookiesGet cookies "flower_owner" = some t →
          ∀ f ∈ store, f.owner_token ≠ t) →
       respCookies (plant_flower store cookies now newId vc sr te ca).2 =
         [{ key := "flower_owner", value := secrets_token_hex 32 te,
            max_age := 60 * 60 * 24 * 365, httponly := true, samesite := "Strict" }]) := by
  constructor
  · intro f hmem hnd hc hne
    have hf : store.find? (fun g => g.owner_token == f.owner_token) = some f :=
      find?_key_eq_of_mem_nodup Flower.owner_token store f hnd hmem
    rw [plant_flower_of_find_some store cookies now newId vc sr te ca
      f.owner_token f hc hne hf]
    rfl
  · intro h
    rw [plant_flower_create_of_no_match store cookies now newId vc sr te ca h,
      plant_create_eq]
    rfl

/-- C5 witness: planting without a cookie sets exactly the ownership cookie. -/
theorem C5_cookie_policy_witness :
    respCookies (plant_flower [] [] 10 7 0 5 3 11).2 =
      [{ key := "flower_owner", value := secrets_token_hex 32 3,
         max_age := 60 * 60 * 24 * 365, httponly := true, samesite := "Strict" }] :=
  (C5_cookie_policy [] [] 10 7 0 5 3 11).2 (Or.inl rfl)

/-- C6 counterexample: the top of the 32-bit unsigned range, 2^32 - 1 =
4294967295, is not representable by the `seed` storage field —
`PositiveIntegerField`, whose guaranteed range is 0..2^31 - 1 — refuting the
claim that every value in [0, 2^32 - 1] is. -/
theorem C6_seed_range_counterexample : ¬ seedRepresentable (2 ^ 32 - 1) := by
  norm_num [seedRepresentable, PositiveIntegerField_max]

/-- C6 amended: every stored seed is a non-negative integer, and the range the
seed is drawn from and that the storage field can hold covers the 31-bit range
[0, 2^31 - 1] (Django's guaranteed `PositiveIntegerField` range), not the full
32-bit unsigned range. -/
theorem C6_seed_range_amended :
    (∀ sr : Nat, seedRepresentable (random_seed sr)) ∧
    (∀ n : Nat, n ≤ 2 ^ 31 - 1 → seedRepresentable n) := by
  constructor
  · intro sr
    simp only [seedRepresentable, random_seed, PositiveIntegerField_max]
    omega
  · intro n hn
    simp only [seedRepresentable, PositiveIntegerField_max]
    norm_num at hn
    exact hn

/-- C6 witness: the field's top value 2147483647 is representable. -/
theorem C6_seed_range_amended_witness :
    (2147483647 : Nat) ≤ 2 ^ 31 - 1 ∧ seedRepresentable 2147483647 :=
  ⟨by norm_num, C6_seed_range_amended.2 2147483647 (by norm_num)⟩

/-- C7: neither operation deletes or updates an existing record: plant returns
the store either unchanged or with exactly one record appended, every record
stored before is still present afterwards, and view leaves the store
untouched. -/
theorem C7_no_delete_no_update (store : List Flower) (cookies : List (String × String))
    (now newId vc sr te ca flower_id : Nat) :
    ((plant_flower store cookies now newId vc sr te ca).1 = store ∨
       ∃ x, (plant_flower store cookies now newId vc sr te ca).1 = store ++ [x]) ∧
    (∀ f ∈ store, f ∈ (plant_flower store cookies now newId vc sr te ca).1) ∧
    (view_flower store cookies flower_id).1 = store := by
  have hfst : (plant_flower store cookies now newId vc sr te ca).1 = store ∨
      ∃ x, (plant_flower store cookies now newId vc sr te ca).1 = store ++ [x] := by
    rcases plant_flower_cases store cookies now newId vc sr te ca with h | h
    · exact Or.inl h
    · rw [h, plant_create_eq]
      exact Or.inr ⟨_, rfl⟩
  refine ⟨hfst, ?_, ?_⟩
  · intro f hf
    rcases hfst with h | ⟨x, h⟩
    · rw [h]
      exact hf
    · rw [h]
      exact List.mem_append_left _ hf
  · cases hv : get_object_or_404 store flower_id <;> simp [view_flower, hv]

/-- C7 witness: the record stored before a cookie-less plant is still stored
afterwards. -/
theorem C7_no_delete_no_update_witness :
    Flower.mk 1 2 "red" 3 "ab" 4 ∈
      (plant_flower [Flower.mk 1 2 "red" 3 "ab" 4] [] 10 7 0 5 3 11).1 :=
  (C7_no_delete_no_update [Flower.mk 1 2 "red" 3 "ab" 4] [] 10 7 0 5 3 11 1).2.1
    (Flower.mk 1 2 "red" 3 "ab" 4) (by decide)

/-- C8: `view_flower` performs no ownership check — its result is independent
of the request's cookies: any two cookie jars yield the same response for the
same store and id. -/
theorem C8_view_cookie_independent (store : List Flower)
    (c1 c2 : List (String × String)) (flower_id : Nat) :
    view_flower store c1 flower_id = view_flower store c2 flower_id := rfl

/-- C9: a plant request whose `flower_owner` cookie is present but empty is
handled exactly like one with no cookie: the result coincides with that of the
cookie-less request, and — for every store, whatever owner tokens it holds, so
no lookup by token can be influencing the outcome — the creation path is
taken. -/
theorem C9_empty_cookie_is_absent (store : List Flower)
    (cookies : List (String × String)) (now newId vc sr te ca : Nat)
    (h : cookiesGet cookies "flower_owner" = some "") :
    plant_flower store cookies now newId vc sr te ca =
      plant_flower store [] now newId vc sr te ca ∧
    plant_flower store cookies now newId vc sr te ca =
      plant_create store now newId vc sr te ca := by
  have h1 := plant_flower_of_cookie_empty store cookies now newId vc sr te ca h
  have h2 := plant_flower_of_cookie_none store [] now newId vc sr te ca rfl
  exact ⟨h1.trans h2.symm, h1⟩

/-- C9 witness: an empty-string cookie over a store already holding a flower. -/
theorem C9_empty_cookie_is_absent_witness :
    plant_flower [⟨1, 2, "red", 3, "ab", 4⟩] [("flower_owner", "")] 10 7 0 5 3 11 =
      plant_flower [⟨1, 2, "red", 3, "ab", 4⟩] [] 10 7 0 5 3 11 ∧
    plant_flower [⟨1, 2, "red", 3, "ab", 4⟩] [("flower_owner", "")] 10 7 0 5 3 11 =
      plant_create [⟨1, 2, "red", 3, "ab", 4⟩] 10 7 0 5 3 11 :=
  C9_empty_cookie_is_absent [⟨1, 2, "red", 3, "ab", 4⟩] [("flower_owner", "")]
    10 7 0 5 3 11 rfl

/-- C10: whenever a plant request creates a record — a record in the resulting
store that was not stored before — its `planted_at` is the server clock reading
`now`, for every cookie jar: no part of the request influences the value. -/
theorem C10_planted_at_is_now (store : List Flower) (cookies : List (String × String))
    (now newId vc sr te ca : Nat) (f : Flower)
    (hf : f ∈ (plant_flower store cookies now newId vc sr te ca).1)
    (hnew : f ∉ store) : f.planted_at = now := by
  rcases plant_flower_cases store cookies now newId vc sr te ca with h | h
  · rw [h] at hf
    exact absurd hf hnew
  · rw [h, plant_create_eq] at hf
    rcases List.mem_append.mp hf with h1 | h1
    · exact absurd h1 hnew
    · rcases List.mem_singleton.mp h1 with rfl
      rfl

/-- C10 witness: the record created by a cookie-less plant into an empty store
carries `planted_at = 10`, the clock input. -/
theorem C10_planted_at_is_now_witness :
    ({ id := 7, planted_at := 10, variation := random_variation 0,
       seed := random_seed 5, owner_token := secrets_token_hex 32 3,
       created_at := 11 } : Flower).planted_at = 10 :=
  C10_planted_at_is_now [] [] 10 7 0 5 3 11
    { id := 7, planted_at := 10, variation := random_variation 0,
      seed := random_seed 5, owner_token := secrets_token_hex 32 3,
      created_at := 11 }
    (by decide) (by decide)

end HourLeaf
